import Mathlib

/-!
Shallow embedding of `Source/VlcMedia/Private/Player/VlcMediaCallbacks.cpp`
(the VlcMedia decoder-callback bridge) and proofs about its behaviour.

Modelling conventions:
- Machine integers are `Nat`/`Int`; 32-bit wraparound is written explicitly
  (`% 4294967296`) where the C++ performs 32-bit arithmetic.
- `FTimespan` values are modelled as `Int` tick counts; the frame duration
  (produced by floating-point `1.0 / fps`) is modelled as a rational.
- External libvlc calls (`VideoGetSize`, `FourccGetChromaDescription`,
  `MediaPlayerGetFps`, `Delay`) and fallible sample operations
  (pool `Acquire`, sample `Init`) are inputs of the embedded functions.
-/

namespace VlcMedia

/-- Audio sample formats used by the bridge (`EMediaAudioSampleFormat`). -/
inductive EMediaAudioSampleFormat
  | Int8
  | Int16
  | Int32
  | Float
  | Double
deriving DecidableEq, Repr

/-- Texture sample formats used by the bridge (`EMediaTextureSampleFormat`). -/
inductive EMediaTextureSampleFormat
  | CharAYUV
  | CharBGRA
  | CharUYVY
  | CharYUY2
  | CharYVYU
deriving DecidableEq, Repr

/-- Unreal's `FIntPoint`; fields are 32-bit signed integers, modelled as `Int`. -/
structure FIntPoint where
  X : Int
  Y : Int
deriving DecidableEq, Repr

/-- `FIntPoint::ZeroValue`. -/
def FIntPoint.ZeroValue : FIntPoint := { X := 0, Y := 0 }

/-- `FIntPoint::GetMin`, the smaller coordinate. -/
def FIntPoint.GetMin (p : FIntPoint) : Int := min p.X p.Y

/-- `FTimespan::MinValue()` expressed in ticks (int64 minimum). -/
def timespanMinValue : Int := -9223372036854775808

/-- 32-bit unsigned wraparound. -/
def u32 (n : Nat) : Nat := n % 4294967296

/-- Reinterpretation of a uint32 bit pattern as an int32 (two's complement),
as happens when a `uint32` value is stored into an `int32` field. -/
def uint32ToInt32 (n : Nat) : Int :=
  if u32 n < 2147483648 then (u32 n : Int) else (u32 n : Int) - 4294967296

/-- Reinterpretation of an int32 value as a uint32 bit pattern, as happens when
an `int32` field is written through an `unsigned*` out-parameter. -/
def int32ToUInt32 (v : Int) : Nat := (v % 4294967296).toNat

/-- Unreal's `Align(v, 16)`: rounds `v` up to the next multiple of 16
(`(v + 15) & ~15` in two's complement). -/
def Align16 (v : Int) : Int := (v + 15) - (v + 15) % 16

/-- `FCStringAnsi::Stricmp(a, b) == 0`: case-insensitive string equality
(compared character by character after lowering). -/
def stricmpEq (a b : String) : Bool :=
  a.data.map Char.toLower == b.data.map Char.toLower

/-- An audio sample as queued by the bridge (`FVlcMediaAudioSample` metadata;
the PCM payload itself is opaque to the properties proved here).
`duration` is in microseconds; `time` is `CurrentTime + delay` in microseconds. -/
structure FVlcMediaAudioSample where
  size : Nat
  frames : Nat
  channels : Nat
  format : EMediaAudioSampleFormat
  rate : Nat
  time : Int
  duration : Nat
deriving DecidableEq, Repr

/-- A video sample (`FVlcMediaTextureSample`): format metadata plus
its pixel buffer as a list of bytes. -/
structure FVlcMediaTextureSample where
  bufferDim : FIntPoint
  outputDim : FIntPoint
  format : EMediaTextureSampleFormat
  stride : Int
  duration : Rat
  time : Int
  buffer : List Nat
deriving DecidableEq, Repr

/-- The bridge state (`FVlcMediaCallbacks` fields), together with the two
output queues held by its `FMediaSamples` collection. -/
structure FVlcMediaCallbacks where
  AudioChannels : Nat
  AudioSampleFormat : EMediaAudioSampleFormat
  AudioSampleRate : Nat
  AudioSampleSize : Nat
  CurrentTime : Int
  VideoBufferDim : FIntPoint
  VideoBufferStride : Int
  VideoFrameDuration : Rat
  VideoOutputDim : FIntPoint
  VideoPreviousTime : Int
  VideoSampleFormat : EMediaTextureSampleFormat
  AudioQueue : List FVlcMediaAudioSample
  VideoQueue : List FVlcMediaTextureSample
deriving DecidableEq, Repr

/-- The constructor `FVlcMediaCallbacks::FVlcMediaCallbacks()`. -/
def initialCallbacks : FVlcMediaCallbacks :=
  { AudioChannels := 0
    AudioSampleFormat := .Int16
    AudioSampleRate := 0
    AudioSampleSize := 0
    CurrentTime := 0
    VideoBufferDim := FIntPoint.ZeroValue
    VideoBufferStride := 0
    VideoFrameDuration := 0
    VideoOutputDim := FIntPoint.ZeroValue
    VideoPreviousTime := timespanMinValue
    VideoSampleFormat := .CharAYUV
    AudioQueue := []
    VideoQueue := [] }

/-- Result of `StaticAudioSetupCallback` for a non-null context: the return
value, the (possibly rewritten) four-character format tag, the accepted rate
and channel count, and the post-state. -/
structure AudioSetupResult where
  retVal : Int
  formatOut : String
  rateOut : Nat
  channelsOut : Nat
  state : FVlcMediaCallbacks
deriving DecidableEq, Repr

/-- `FVlcMediaCallbacks::StaticAudioSetupCallback` (non-null context path).
`Format` is the four-character tag compared bytewise (`Memcmp`, 4 bytes);
`Rate` and `Channels` are the decoder's proposed values (uint32). -/
def StaticAudioSetupCallback (cb : FVlcMediaCallbacks) (Format : String)
    (Rate Channels : Nat) : AudioSetupResult :=
  let Channels := if Channels > 8 then 8 else Channels
  let step : String × EMediaAudioSampleFormat × Nat :=
    if Format = "S8  " then (Format, .Int8, 1)
    else if Format = "S16N" then (Format, .Int16, 2)
    else if Format = "S32N" then (Format, .Int32, 4)
    else if Format = "FL32" then (Format, .Float, 4)
    else if Format = "FL64" then (Format, .Double, 8)
    else if Format = "U8  " then ("S8  ", .Int8, 1)
    else ("S16N", .Int16, 2)
  { retVal := 0
    formatOut := step.1
    rateOut := Rate
    channelsOut := Channels
    state :=
      { cb with
        AudioSampleFormat := step.2.1
        AudioSampleSize := step.2.2
        AudioChannels := Channels
        AudioSampleRate := Rate } }

/-- `FVlcMediaCallbacks::StaticAudioPlayCallback` (non-null context path).
`Count` is the uint32 frame count; `DelayMicros` is the value of
`FVlc::Delay(Timestamp)` (an external conversion, passed as an input);
`sampleInitOk` is whether `AudioSample->Init...` succeeds. The duration is
computed in 32-bit unsigned arithmetic (`Count * 1000000` wraps). -/
def StaticAudioPlayCallback (cb : FVlcMediaCallbacks) (Count : Nat)
    (DelayMicros : Int) (sampleInitOk : Bool) : FVlcMediaCallbacks :=
  let Duration : Nat := u32 (Count * 1000000) / cb.AudioSampleRate
  let SamplesSize : Nat := Count * cb.AudioSampleSize * cb.AudioChannels
  let sample : FVlcMediaAudioSample :=
    { size := SamplesSize
      frames := Count
      channels := cb.AudioChannels
      format := cb.AudioSampleFormat
      rate := cb.AudioSampleRate
      time := cb.CurrentTime + DelayMicros
      duration := Duration }
  if sampleInitOk then
    { cb with AudioQueue := cb.AudioQueue ++ [sample] }
  else
    cb

/-- What `Planes[0]` holds when a lock callback returns: the zeroed pointer,
a freshly `Malloc`ed throwaway scratch buffer of the given byte size, or the
acquired sample's mutable buffer. -/
inductive PlanePtr
  | nullPtr
  | scratch (size : Int)
  | sampleBuf
deriving DecidableEq, Repr

/-- Result of `StaticVideoLockCallback`: the opaque frame handle (`none` for
the null handle), the pointer stored in `Planes[0]`, and the post-state. -/
structure VideoLockResult where
  handle : Option FVlcMediaTextureSample
  plane0 : PlanePtr
  state : FVlcMediaCallbacks
deriving Repr

/-- `FVlcMediaCallbacks::StaticVideoLockCallback` (non-null context; the null
context case is an assertion, see `nullContextBehavior`). `acquireOk` is
whether `VideoSamplePool->Acquire()` returns a sample; `sampleInitOk` is
whether `VideoSample->Init...` succeeds. The sample's pixel content is written
by the decoder after the lock returns, so the handle's buffer is empty here. -/
def StaticVideoLockCallback (cb : FVlcMediaCallbacks)
    (acquireOk sampleInitOk : Bool) : VideoLockResult :=
  let scratchSize : Int := cb.VideoBufferStride * cb.VideoBufferDim.Y
  if cb.VideoPreviousTime = cb.CurrentTime then
    { handle := none, plane0 := .scratch scratchSize, state := cb }
  else if acquireOk = false then
    { handle := none, plane0 := .scratch scratchSize, state := cb }
  else if sampleInitOk = false then
    { handle := none, plane0 := .scratch scratchSize, state := cb }
  else
    { handle := some
        { bufferDim := cb.VideoBufferDim
          outputDim := cb.VideoOutputDim
          format := cb.VideoSampleFormat
          stride := cb.VideoBufferStride
          duration := cb.VideoFrameDuration
          time := 0
          buffer := [] }
      plane0 := .sampleBuf
      state := { cb with VideoPreviousTime := cb.CurrentTime } }

/-- Result of `StaticVideoSetupCallback` for a non-null context: the
return value (0 rejects, 1 accepts), the possibly rewritten chroma tag and
`*Height`, the values written to `Lines[0]`/`Pitches[0]` (`none` when the
rejection path leaves them unwritten), whether execution reached the
`1.0 / MediaPlayerGetFps(...)` frame-duration division, and the post-state. -/
structure VideoSetupResult where
  retVal : Nat
  chromaOut : String
  heightOut : Nat
  lines0 : Option Int
  pitches0 : Option Int
  dividedByFps : Bool
  state : FVlcMediaCallbacks
deriving DecidableEq, Repr

/-- The shared tail of every accepting path of `StaticVideoSetupCallback`:
compute `VideoFrameDuration = 1 / fps` (the C++ performs the floating-point
division `1.0 / FVlc::MediaPlayerGetFps(Player)` with no guard on the value
of fps), write `Lines[0]` and `Pitches[0]`, and return 1. -/
def videoSetupAccept (cb : FVlcMediaCallbacks) (chromaOut : String)
    (heightOut : Nat) (Fps : Rat) : VideoSetupResult :=
  let cb := { cb with VideoFrameDuration := 1 / Fps }
  { retVal := 1
    chromaOut := chromaOut
    heightOut := heightOut
    lines0 := some cb.VideoBufferDim.Y
    pitches0 := some cb.VideoBufferStride
    dividedByFps := true
    state := cb }

/-- `FVlcMediaCallbacks::StaticVideoSetupCallback` (non-null context path).
`Chroma` is the four-character chroma tag; `Width`/`Height` are the proposed
uint32 dimensions; `videoGetSize` is the outcome of
`FVlc::VideoGetSize(Player, 0, ...)` (`none` = nonzero return, `some (x, y)` =
success storing the int32-reinterpreted pair); `PlaneCount` is the
`PlaneCount` field of `FVlc::FourccGetChromaDescription(Chroma)`; `Fps` is the
value of `FVlc::MediaPlayerGetFps(Player)`. -/
def StaticVideoSetupCallback (cb : FVlcMediaCallbacks) (Chroma : String)
    (Width Height : Nat) (videoGetSize : Option (Int × Int))
    (PlaneCount : Nat) (Fps : Rat) : VideoSetupResult :=
  match videoGetSize with
  | none =>
      { retVal := 0
        chromaOut := Chroma
        heightOut := Height
        lines0 := none
        pitches0 := none
        dividedByFps := false
        state :=
          { cb with
            VideoBufferDim := FIntPoint.ZeroValue
            VideoOutputDim := FIntPoint.ZeroValue
            VideoBufferStride := 0 } }
  | some (ox, oy) =>
      let cb := { cb with VideoOutputDim := { X := ox, Y := oy } }
      if cb.VideoOutputDim.GetMin ≤ 0 then
        { retVal := 0
          chromaOut := Chroma
          heightOut := Height
          lines0 := none
          pitches0 := none
          dividedByFps := false
          state := cb }
      else
        let cb :=
          { cb with
            VideoBufferDim := { X := uint32ToInt32 Width, Y := uint32ToInt32 Height } }
        if stricmpEq Chroma "AYUV" then
          videoSetupAccept
            { cb with
              VideoSampleFormat := .CharAYUV
              VideoBufferStride := uint32ToInt32 (Width * 4) }
            Chroma Height Fps
        else if stricmpEq Chroma "RV32" then
          videoSetupAccept
            { cb with
              VideoSampleFormat := .CharBGRA
              VideoBufferStride := uint32ToInt32 (Width * 4) }
            Chroma Height Fps
        else if stricmpEq Chroma "UYVY" || stricmpEq Chroma "Y422" ||
            stricmpEq Chroma "UYNV" || stricmpEq Chroma "HDYC" then
          videoSetupAccept
            { cb with
              VideoSampleFormat := .CharUYVY
              VideoBufferStride := uint32ToInt32 (Width * 2) }
            Chroma Height Fps
        else if stricmpEq Chroma "YUY2" || stricmpEq Chroma "V422" ||
            stricmpEq Chroma "YUYV" then
          videoSetupAccept
            { cb with
              VideoSampleFormat := .CharYUY2
              VideoBufferStride := uint32ToInt32 (Width * 2) }
            Chroma Height Fps
        else if stricmpEq Chroma "YVYU" then
          videoSetupAccept
            { cb with
              VideoSampleFormat := .CharYVYU
              VideoBufferStride := uint32ToInt32 (Width * 2) }
            Chroma Height Fps
        else if PlaneCount = 0 then
          { retVal := 0
            chromaOut := Chroma
            heightOut := Height
            lines0 := none
            pitches0 := none
            dividedByFps := false
            state := cb }
        else if PlaneCount > 1 then
          let dim : FIntPoint :=
            { X := Align16 cb.VideoOutputDim.X / 2, Y := Align16 cb.VideoOutputDim.Y }
          videoSetupAccept
            { cb with
              VideoBufferDim := dim
              VideoSampleFormat := .CharYUY2
              VideoBufferStride := dim.X * 4 }
            "YUY2" (int32ToUInt32 dim.Y) Fps
        else
          videoSetupAccept
            { cb with
              VideoBufferDim := cb.VideoOutputDim
              VideoSampleFormat := .CharBGRA
              VideoBufferStride := cb.VideoOutputDim.X * 4 }
            "RV32" Height Fps

/-- The chroma tags matched by `StaticVideoSetupCallback`'s fixed table
(case-insensitive); a tag outside this table takes the renegotiation path. -/
def chromaRecognized (c : String) : Bool :=
  stricmpEq c "AYUV" || stricmpEq c "RV32" ||
  stricmpEq c "UYVY" || stricmpEq c "Y422" ||
  stricmpEq c "UYNV" || stricmpEq c "HDYC" ||
  stricmpEq c "YUY2" || stricmpEq c "V422" ||
  stricmpEq c "YUYV" || stricmpEq c "YVYU"

/-- One step of the in-place loop in `StaticVideoDisplayCallback` for a
`CharBGRA` sample, on the four bytes of one pixel: `pixel` is the
little-endian 32-bit word; the bytes are written back as
`(pixel & 0x7C00) >> 7`, `0`, `0`, and a copy of the original byte 0. -/
def bgraRemapPixel : Nat × Nat × Nat × Nat → Nat × Nat × Nat × Nat
  | (b0, b1, b2, b3) =>
      let pixel := b0 + 256 * b1 + 65536 * b2 + 16777216 * b3
      ((pixel &&& 0x7C00) >>> 7, 0, 0, b0)

/-- The transcode loop of `StaticVideoDisplayCallback`: `n` pixels (the loop
bound `SrcBpp * X * Y` in steps of `SrcBpp = 4`), walking the byte buffer four
bytes at a time. -/
def bgraTranscode : Nat → List Nat → List Nat
  | 0, buf => buf
  | n + 1, buf =>
      match buf with
      | b0 :: b1 :: b2 :: b3 :: rest =>
          let pixel := b0 + 256 * b1 + 65536 * b2 + 16777216 * b3
          ((pixel &&& 0x7C00) >>> 7) :: 0 :: 0 :: b0 :: bgraTranscode n rest
      | other => other

/-- Flatten a list of 4-byte pixels into the byte buffer. -/
def pixelsToBytes : List (Nat × Nat × Nat × Nat) → List Nat
  | [] => []
  | (b0, b1, b2, b3) :: rest => b0 :: b1 :: b2 :: b3 :: pixelsToBytes rest

/-- `FVlcMediaCallbacks::StaticVideoDisplayCallback` (non-null context and
non-null picture; a null picture returns without touching any state, see
`StaticVideoDisplayCallbackNullable`). Stamps the sample with `CurrentTime`,
runs the in-place BGRA transcode loop over the sample's
`GetDim().X * GetDim().Y` pixels when the format is `CharBGRA` (the texture
upload is an external side effect that does not change bridge state), and
pushes the sample onto the video queue. -/
def StaticVideoDisplayCallbackCore (cb : FVlcMediaCallbacks)
    (VideoSample : FVlcMediaTextureSample) : FVlcMediaCallbacks :=
  let VideoSample := { VideoSample with time := cb.CurrentTime }
  let VideoSample :=
    if VideoSample.format = EMediaTextureSampleFormat.CharBGRA then
      { VideoSample with
        buffer := bgraTranscode
          (VideoSample.bufferDim.X * VideoSample.bufferDim.Y).toNat
          VideoSample.buffer }
    else VideoSample
  { cb with VideoQueue := cb.VideoQueue ++ [VideoSample] }

/-- `StaticVideoDisplayCallback` including the null-picture early return. -/
def StaticVideoDisplayCallbackNullable (cb : FVlcMediaCallbacks)
    (Picture : Option FVlcMediaTextureSample) : FVlcMediaCallbacks :=
  match Picture with
  | none => cb
  | some VideoSample => StaticVideoDisplayCallbackCore cb VideoSample

/-- The callbacks registered by `FVlcMediaCallbacks::Initialize`. -/
inductive CallbackId
  | audioSetup
  | audioCleanup
  | audioPlay
  | audioPause
  | audioResume
  | audioFlush
  | audioDrain
  | videoSetup
  | videoCleanup
  | videoLock
  | videoUnlock
  | videoDisplay
deriving DecidableEq, Repr

/-- How a callback behaves when its context pointer (the `FVlcMediaCallbacks`
instance recovered from the opaque argument) is null. -/
inductive NullContextBehavior
  | benignReturnInt (retVal : Int)
  | benignReturnVoid
  | assertHalt
deriving DecidableEq, Repr

/-- Whether a null-context behaviour is a defensive benign return. -/
def NullContextBehavior.isBenign : NullContextBehavior → Bool
  | .benignReturnInt _ => true
  | .benignReturnVoid => true
  | .assertHalt => false

/-- Transcription of each static callback's null-context prologue:
`StaticAudioSetupCallback` returns -1; `StaticVideoSetupCallback` returns 0;
`StaticAudioPlayCallback` and `StaticVideoDisplayCallback` return without
doing anything; the pause/resume/flush/drain/cleanup callbacks only log and
never dereference the context; `StaticVideoUnlockCallback` uses the context
only in a guarded log statement. `StaticVideoLockCallback` instead executes
`check(Callbacks != nullptr)` — an assertion, which halts in checked builds
(and in builds that compile `check` out, the subsequent dereference of the
null context faults); it is not a defensive return. -/
def nullContextBehavior : CallbackId → NullContextBehavior
  | .audioSetup => .benignReturnInt (-1)
  | .audioCleanup => .benignReturnVoid
  | .audioPlay => .benignReturnVoid
  | .audioPause => .benignReturnVoid
  | .audioResume => .benignReturnVoid
  | .audioFlush => .benignReturnVoid
  | .audioDrain => .benignReturnVoid
  | .videoSetup => .benignReturnInt 0
  | .videoCleanup => .benignReturnVoid
  | .videoLock => .assertHalt
  | .videoUnlock => .benignReturnVoid
  | .videoDisplay => .benignReturnVoid

/-- Claim C1 (code bug evidence): with the decoder reporting fps = 0, a video
format negotiation that passes the dimension and chroma checks still returns
accept (1) and reaches the unguarded frame-duration division
`1.0 / MediaPlayerGetFps(...)`; the negotiation does not reject on
non-positive frame rates. -/
theorem videoSetup_fps_zero_accepts :
    (StaticVideoSetupCallback initialCallbacks "RV32" 640 480 (some (640, 480)) 0 0).retVal = 1 ∧
    (StaticVideoSetupCallback initialCallbacks "RV32" 640 480 (some (640, 480)) 0 0).dividedByFps
      = true := by
  constructor <;> rfl

/-- A bridge state with a nonzero stride, used to exhibit that rejection on
non-positive queried dimensions does not reset the stride. -/
def videoSetupCexState : FVlcMediaCallbacks :=
  { initialCallbacks with VideoBufferStride := 7 }

/-- Claim C2 counterexample: when the dimension query succeeds but yields a
non-positive dimension (here (0, 10)), the negotiation returns 0 but the
post-state stride keeps its prior value 7 and the output dimensions hold the
queried values instead of being reset to zero — refuting the claimed reset. -/
theorem videoSetup_dim_reject_no_reset_cex :
    (StaticVideoSetupCallback videoSetupCexState "RV32" 16 16 (some (0, 10)) 0 1).retVal = 0 ∧
    (StaticVideoSetupCallback videoSetupCexState "RV32" 16 16
      (some (0, 10)) 0 1).state.VideoBufferStride = 7 ∧
    (StaticVideoSetupCallback videoSetupCexState "RV32" 16 16
      (some (0, 10)) 0 1).state.VideoOutputDim ≠ FIntPoint.ZeroValue := by
  refine ⟨rfl, rfl, ?_⟩
  decide

/-- Claim C2 (amended): the negotiation rejects both when the dimension query
fails and when it yields a non-positive dimension, but the reset of buffer
dimensions, output dimensions and stride to zero happens only on query
failure; on a successful query with a non-positive dimension the rejection
leaves every field except the output dimensions (which hold the queried
values) at its prior value. -/
theorem videoSetup_dim_reject_amended (cb : FVlcMediaCallbacks) (Chroma : String)
    (Width Height : Nat) (PlaneCount : Nat) (Fps : Rat) :
    ((StaticVideoSetupCallback cb Chroma Width Height none PlaneCount Fps).retVal = 0 ∧
      (StaticVideoSetupCallback cb Chroma Width Height none PlaneCount Fps).state =
        { cb with
          VideoBufferDim := FIntPoint.ZeroValue
          VideoOutputDim := FIntPoint.ZeroValue
          VideoBufferStride := 0 }) ∧
    (∀ ox oy : Int, min ox oy ≤ 0 →
      (StaticVideoSetupCallback cb Chroma Width Height (some (ox, oy)) PlaneCount Fps).retVal
        = 0 ∧
      (StaticVideoSetupCallback cb Chroma Width Height (some (ox, oy)) PlaneCount Fps).state =
        { cb with VideoOutputDim := { X := ox, Y := oy } }) := by
  refine ⟨⟨rfl, rfl⟩, ?_⟩
  intro ox oy h
  have hcond : FIntPoint.GetMin { X := ox, Y := oy } ≤ 0 := h
  simp only [StaticVideoSetupCallback]
  rw [if_pos hcond]
  exact ⟨rfl, rfl⟩

/-- Witness for the amended claim C2 at a concrete rejecting input. -/
theorem videoSetup_dim_reject_amended_witness :
    (StaticVideoSetupCallback initialCallbacks "RV32" 16 16 (some (0, 10)) 0 1).retVal = 0 ∧
    (StaticVideoSetupCallback initialCallbacks "RV32" 16 16 (some (0, 10)) 0 1).state =
      { initialCallbacks with VideoOutputDim := { X := 0, Y := 10 } } :=
  (videoSetup_dim_reject_amended initialCallbacks "RV32" 16 16 0 1).2 0 10 (by decide)

/-- Claim C3: on every failure path of the video lock callback (duplicate
playback time, pool acquisition failure, or sample-init failure) the handle is
null, `Planes[0]` is a scratch buffer of `stride * bufferHeight` bytes, and
the state — in particular the last-lock timestamp — is unchanged; when the
last-lock timestamp equals the playback clock, two consecutive lock calls
both return null and never advance the marker; only on the success path is
the marker advanced to the clock and `Planes[0]` set to the sample buffer. -/
theorem videoLock_contract (cb : FVlcMediaCallbacks) (acquireOk sampleInitOk : Bool) :
    ((cb.VideoPreviousTime = cb.CurrentTime ∨ acquireOk = false ∨ sampleInitOk = false) →
      (StaticVideoLockCallback cb acquireOk sampleInitOk).handle = none ∧
      (StaticVideoLockCallback cb acquireOk sampleInitOk).plane0 =
        PlanePtr.scratch (cb.VideoBufferStride * cb.VideoBufferDim.Y) ∧
      (StaticVideoLockCallback cb acquireOk sampleInitOk).state = cb) ∧
    (cb.VideoPreviousTime = cb.CurrentTime →
      (StaticVideoLockCallback cb acquireOk sampleInitOk).handle = none ∧
      (StaticVideoLockCallback (StaticVideoLockCallback cb acquireOk sampleInitOk).state
          acquireOk sampleInitOk).handle = none ∧
      (StaticVideoLockCallback cb acquireOk sampleInitOk).state.VideoPreviousTime =
        cb.VideoPreviousTime) ∧
    (cb.VideoPreviousTime ≠ cb.CurrentTime → acquireOk = true → sampleInitOk = true →
      (StaticVideoLockCallback cb acquireOk sampleInitOk).handle ≠ none ∧
      (StaticVideoLockCallback cb acquireOk sampleInitOk).plane0 = PlanePtr.sampleBuf ∧
      (StaticVideoLockCallback cb acquireOk sampleInitOk).state =
        { cb with VideoPreviousTime := cb.CurrentTime }) := by
  refine ⟨?_, ?_, ?_⟩
  · intro h
    unfold StaticVideoLockCallback
    rcases h with h | h | h
    · rw [if_pos h]
      exact ⟨rfl, rfl, rfl⟩
    · subst h
      split
      · exact ⟨rfl, rfl, rfl⟩
      · rw [if_pos rfl]
        exact ⟨rfl, rfl, rfl⟩
    · subst h
      split
      · exact ⟨rfl, rfl, rfl⟩
      · split
        · exact ⟨rfl, rfl, rfl⟩
        · rw [if_pos rfl]
          exact ⟨rfl, rfl, rfl⟩
  · intro h
    have h1 : (StaticVideoLockCallback cb acquireOk sampleInitOk).state = cb := by
      unfold StaticVideoLockCallback
      rw [if_pos h]
    refine ⟨?_, ?_, ?_⟩
    · unfold StaticVideoLockCallback
      rw [if_pos h]
    · rw [h1]
      unfold StaticVideoLockCallback
      rw [if_pos h]
    · rw [h1]
  · intro h ha hi
    subst ha; subst hi
    unfold StaticVideoLockCallback
    rw [if_neg h, if_neg (by decide : ¬(true = false)), if_neg (by decide : ¬(true = false))]
    refine ⟨?_, rfl, rfl⟩
    intro hc
    exact Option.noConfusion hc

/-- A bridge state whose last-lock timestamp already equals the playback
clock, used to witness the duplicate-lock branch of `videoLock_contract`. -/
def videoLockCbW : FVlcMediaCallbacks :=
  { initialCallbacks with
    VideoPreviousTime := 5
    CurrentTime := 5
    VideoBufferStride := 1280
    VideoBufferDim := { X := 640, Y := 480 } }

/-- Witness for claim C3 at a concrete duplicate-time state. -/
theorem videoLock_contract_witness :
    ((StaticVideoLockCallback videoLockCbW true true).handle = none ∧
      (StaticVideoLockCallback videoLockCbW true true).plane0 =
        PlanePtr.scratch (1280 * 480) ∧
      (StaticVideoLockCallback videoLockCbW true true).state = videoLockCbW) ∧
    (StaticVideoLockCallback (StaticVideoLockCallback videoLockCbW true true).state
        true true).handle = none := by
  have h := videoLock_contract videoLockCbW true true
  have h1 := h.1 (Or.inl rfl)
  have h2 := h.2.1 rfl
  refine ⟨⟨h1.1, ?_, h1.2.2⟩, h2.2.1⟩
  exact h1.2.1

/-- Claim C4: the audio format negotiation maps each of the five supported
tags to exactly its table entry, rewrites the unsigned-8-bit tag to the
signed one with format Int8 and size 1, rewrites any other tag to the
16-bit-signed fallback with format Int16 and size 2, and clamps the accepted
channel count to at most 8 (the minimum of the proposal and 8). -/
theorem audioSetup_format_table (cb : FVlcMediaCallbacks) (Rate Channels : Nat)
    (Format : String) :
    ((StaticAudioSetupCallback cb Format Rate Channels).channelsOut = min Channels 8 ∧
      (StaticAudioSetupCallback cb Format Rate Channels).state.AudioChannels
        = min Channels 8) ∧
    ((StaticAudioSetupCallback cb "S8  " Rate Channels).formatOut = "S8  " ∧
      (StaticAudioSetupCallback cb "S8  " Rate Channels).state.AudioSampleFormat
        = EMediaAudioSampleFormat.Int8 ∧
      (StaticAudioSetupCallback cb "S8  " Rate Channels).state.AudioSampleSize = 1) ∧
    ((StaticAudioSetupCallback cb "S16N" Rate Channels).formatOut = "S16N" ∧
      (StaticAudioSetupCallback cb "S16N" Rate Channels).state.AudioSampleFormat
        = EMediaAudioSampleFormat.Int16 ∧
      (StaticAudioSetupCallback cb "S16N" Rate Channels).state.AudioSampleSize = 2) ∧
    ((StaticAudioSetupCallback cb "S32N" Rate Channels).formatOut = "S32N" ∧
      (StaticAudioSetupCallback cb "S32N" Rate Channels).state.AudioSampleFormat
        = EMediaAudioSampleFormat.Int32 ∧
      (StaticAudioSetupCallback cb "S32N" Rate Channels).state.AudioSampleSize = 4) ∧
    ((StaticAudioSetupCallback cb "FL32" Rate Channels).formatOut = "FL32" ∧
      (StaticAudioSetupCallback cb "FL32" Rate Channels).state.AudioSampleFormat
        = EMediaAudioSampleFormat.Float ∧
      (StaticAudioSetupCallback cb "FL32" Rate Channels).state.AudioSampleSize = 4) ∧
    ((StaticAudioSetupCallback cb "FL64" Rate Channels).formatOut = "FL64" ∧
      (StaticAudioSetupCallback cb "FL64" Rate Channels).state.AudioSampleFormat
        = EMediaAudioSampleFormat.Double ∧
      (StaticAudioSetupCallback cb "FL64" Rate Channels).state.AudioSampleSize = 8) ∧
    ((StaticAudioSetupCallback cb "U8  " Rate Channels).formatOut = "S8  " ∧
      (StaticAudioSetupCallback cb "U8  " Rate Channels).state.AudioSampleFormat
        = EMediaAudioSampleFormat.Int8 ∧
      (StaticAudioSetupCallback cb "U8  " Rate Channels).state.AudioSampleSize = 1) ∧
    (Format ≠ "S8  " → Format ≠ "S16N" → Format ≠ "S32N" → Format ≠ "FL32" →
      Format ≠ "FL64" → Format ≠ "U8  " →
      (StaticAudioSetupCallback cb Format Rate Channels).formatOut = "S16N" ∧
      (StaticAudioSetupCallback cb Format Rate Channels).state.AudioSampleFormat
        = EMediaAudioSampleFormat.Int16 ∧
      (StaticAudioSetupCallback cb Format Rate Channels).state.AudioSampleSize = 2) := by
  refine ⟨?_, ?_, ?_, ?_, ?_, ?_, ?_, ?_⟩
  · constructor <;>
      · simp only [StaticAudioSetupCallback]
        split <;> omega
  · exact ⟨rfl, rfl, rfl⟩
  · exact ⟨rfl, rfl, rfl⟩
  · exact ⟨rfl, rfl, rfl⟩
  · exact ⟨rfl, rfl, rfl⟩
  · exact ⟨rfl, rfl, rfl⟩
  · exact ⟨rfl, rfl, rfl⟩
  · intro h1 h2 h3 h4 h5 h6
    unfold StaticAudioSetupCallback
    rw [if_neg h1, if_neg h2, if_neg h3, if_neg h4, if_neg h5, if_neg h6]
    exact ⟨rfl, rfl, rfl⟩

/-- Witness for claim C4: the spec's own scenario (tag U8, 10 channels) and an
unrecognized tag both evaluated concretely. -/
theorem audioSetup_format_table_witness :
    (StaticAudioSetupCallback initialCallbacks "U8  " 44100 10).channelsOut = min 10 8 ∧
    (StaticAudioSetupCallback initialCallbacks "XYZW" 48000 2).formatOut = "S16N" := by
  have h1 := (audioSetup_format_table initialCallbacks 44100 10 "U8  ").1.1
  have h2 := (audioSetup_format_table initialCallbacks 48000 2 "XYZW").2.2.2.2.2.2.2
    (by decide) (by decide) (by decide) (by decide) (by decide) (by decide)
  exact ⟨h1, h2.1⟩

/-- Claim C6: a display call with a null picture handle changes nothing; a
display call with a non-null handle pushes exactly one sample onto the video
queue, stamped with the current playback time, and changes no other state. -/
theorem videoDisplay_queue_push (cb : FVlcMediaCallbacks) (s : FVlcMediaTextureSample) :
    StaticVideoDisplayCallbackNullable cb none = cb ∧
    ∃ s2, StaticVideoDisplayCallbackNullable cb (some s) =
        { cb with VideoQueue := cb.VideoQueue ++ [s2] } ∧ s2.time = cb.CurrentTime := by
  refine ⟨rfl, ?_⟩
  unfold StaticVideoDisplayCallbackNullable StaticVideoDisplayCallbackCore
  dsimp only
  split
  · exact ⟨_, rfl, rfl⟩
  · exact ⟨_, rfl, rfl⟩

/-- Claim C7 counterexample: the video lock callback does not perform a
defensive benign return on a null context pointer — it asserts. -/
theorem nullContext_lock_not_benign :
    (nullContextBehavior CallbackId.videoLock).isBenign = false := rfl

/-- Claim C7 (amended): every callback except the video lock callback
performs a defensive benign return when its context pointer is null; the
video lock callback instead asserts that the context is non-null. -/
theorem nullContext_amended :
    (∀ c : CallbackId, c ≠ CallbackId.videoLock →
      (nullContextBehavior c).isBenign = true) ∧
    nullContextBehavior CallbackId.videoLock = NullContextBehavior.assertHalt := by
  constructor
  · intro c hc
    cases c <;> first | rfl | exact absurd rfl hc
  · rfl

/-- Witness for the amended claim C7 at a concrete callback. -/
theorem nullContext_amended_witness :
    (nullContextBehavior CallbackId.videoDisplay).isBenign = true :=
  nullContext_amended.1 CallbackId.videoDisplay (by decide)

/-- A bridge state after a 1-byte mono 1-Hz audio negotiation, used to
exhibit the 32-bit wraparound in the audio duration computation. -/
def audioPlayCexState : FVlcMediaCallbacks :=
  { initialCallbacks with
    AudioSampleRate := 1
    AudioSampleSize := 1
    AudioChannels := 1 }

/-- Claim C8 counterexample: at sample count 4295 and rate 1, the queued
sample's duration is 32704 microseconds (the product 4295000000 wrapped
modulo two to the thirty-second), not the claimed
sampleCount times 1000000 over sampleRate. -/
theorem audioPlay_duration_wrap_cex :
    (StaticAudioPlayCallback audioPlayCexState 4295 0 true).AudioQueue.map
      (fun s => s.duration) = [32704] ∧
    (32704 : Nat) ≠ 4295 * 1000000 / 1 := by
  constructor
  · rfl
  · decide

/-- Claim C8 (amended): for every audio delivery with a positive sample rate,
the queued sample has duration (sampleCount times 1000000, wrapped in 32-bit
unsigned arithmetic) divided by sampleRate microseconds, buffer byte size
sampleCount times bytesPerSample times channelCount, and timestamp equal to
the playback clock plus the decoder-converted delay; the sample is queued
exactly when its initialization succeeds, and a failed initialization leaves
the state unchanged. -/
theorem audioPlay_fields_amended (cb : FVlcMediaCallbacks) (Count : Nat)
    (DelayMicros : Int) (sampleInitOk : Bool) (hrate : 0 < cb.AudioSampleRate) :
    (sampleInitOk = true → StaticAudioPlayCallback cb Count DelayMicros sampleInitOk =
      { cb with AudioQueue := cb.AudioQueue ++
          [{ size := Count * cb.AudioSampleSize * cb.AudioChannels
             frames := Count
             channels := cb.AudioChannels
             format := cb.AudioSampleFormat
             rate := cb.AudioSampleRate
             time := cb.CurrentTime + DelayMicros
             duration := Count * 1000000 % 4294967296 / cb.AudioSampleRate }] }) ∧
    (sampleInitOk = false →
      StaticAudioPlayCallback cb Count DelayMicros sampleInitOk = cb) := by
  constructor
  · intro h
    subst h
    rfl
  · intro h
    subst h
    rfl

/-- A bridge state after a typical S16N stereo 44100-Hz negotiation, used to
witness the amended claim C8. -/
def audioPlayAmendedW : FVlcMediaCallbacks :=
  { initialCallbacks with
    AudioSampleRate := 44100
    AudioSampleSize := 2
    AudioChannels := 2 }

/-- Witness for the amended claim C8 at a concrete delivery. -/
theorem audioPlay_fields_amended_witness :
    (StaticAudioPlayCallback audioPlayAmendedW 1024 5 true).AudioQueue.length = 1 ∧
    StaticAudioPlayCallback audioPlayAmendedW 1024 5 false = audioPlayAmendedW := by
  have h := audioPlay_fields_amended audioPlayAmendedW 1024 5 true (by decide)
  have h2 := audioPlay_fields_amended audioPlayAmendedW 1024 5 false (by decide)
  constructor
  · rw [h.1 rfl]
    rfl
  · exact h2.2 rfl

/-- A uint32 below 2^31 is unchanged by the int32 reinterpretation. -/
theorem uint32ToInt32_small {w : Nat} (h : w < 2147483648) :
    uint32ToInt32 w = (w : Int) := by
  have hu : u32 w = w := Nat.mod_eq_of_lt (by omega)
  unfold uint32ToInt32
  rw [hu, if_pos h]

/-- Claim C10: when the dimension checks pass but an unrecognized chroma
reports zero planes, the rejected negotiation has already overwritten the
buffer dimensions with the proposed width and height, while the stride,
sample format and frame duration keep their prior values — the rejection is
not state-atomic. -/
theorem videoSetup_zero_plane_state (cb : FVlcMediaCallbacks) (Chroma : String)
    (Width Height : Nat) (ox oy : Int) (PlaneCount : Nat) (Fps : Rat)
    (hW : Width < 2147483648) (hH : Height < 2147483648)
    (hmin : 0 < min ox oy) (hc : chromaRecognized Chroma = false)
    (hp : PlaneCount = 0) :
    (StaticVideoSetupCallback cb Chroma Width Height (some (ox, oy)) PlaneCount Fps).retVal
      = 0 ∧
    (StaticVideoSetupCallback cb Chroma Width Height
        (some (ox, oy)) PlaneCount Fps).state.VideoBufferDim
      = { X := (Width : Int), Y := (Height : Int) } ∧
    (StaticVideoSetupCallback cb Chroma Width Height
        (some (ox, oy)) PlaneCount Fps).state.VideoBufferStride = cb.VideoBufferStride ∧
    (StaticVideoSetupCallback cb Chroma Width Height
        (some (ox, oy)) PlaneCount Fps).state.VideoSampleFormat = cb.VideoSampleFormat ∧
    (StaticVideoSetupCallback cb Chroma Width Height
        (some (ox, oy)) PlaneCount Fps).state.VideoFrameDuration = cb.VideoFrameDuration := by
  subst hp
  simp only [chromaRecognized, Bool.or_eq_false_iff] at hc
  obtain ⟨⟨⟨⟨⟨⟨⟨⟨⟨h1, h2⟩, h3⟩, h4⟩, h5⟩, h6⟩, h7⟩, h8⟩, h9⟩, h10⟩ := hc
  have hgm : ¬(FIntPoint.GetMin { X := ox, Y := oy } ≤ 0) := by
    simp only [FIntPoint.GetMin]
    omega
  unfold StaticVideoSetupCallback
  simp only [h1, h2, h3, h4, h5, h6, h7, h8, h9, h10, hgm, if_false, Bool.or_self,
    Bool.false_eq_true, if_pos rfl]
  rw [uint32ToInt32_small hW, uint32ToInt32_small hH]
  exact ⟨rfl, rfl, rfl, rfl, rfl⟩

/-- Witness for claim C10 at a concrete zero-plane rejection. -/
theorem videoSetup_zero_plane_state_witness :
    (StaticVideoSetupCallback initialCallbacks "XXXX" 640 480
        (some (640, 480)) 0 1).retVal = 0 ∧
    (StaticVideoSetupCallback initialCallbacks "XXXX" 640 480
        (some (640, 480)) 0 1).state.VideoBufferDim = { X := 640, Y := 480 } ∧
    (StaticVideoSetupCallback initialCallbacks "XXXX" 640 480
        (some (640, 480)) 0 1).state.VideoBufferStride = 0 := by
  have h := videoSetup_zero_plane_state initialCallbacks "XXXX" 640 480 640 480 0 1
    (by decide) (by decide) (by decide) (by decide) rfl
  exact ⟨h.1, h.2.1, h.2.2.1⟩

/-- Claim C5: a video format negotiation whose chroma tag is outside the
fixed table rejects when the decoder's chroma description reports zero
planes; with more than one plane it rewrites the tag to YUY2 and sets the
buffer width to align(outputWidth, 16) / 2 and the buffer height to
align(outputHeight, 16); with exactly one plane it rewrites the tag to RV32
and sets the buffer dimensions equal to the output dimensions with the
packed BGRA32 sample format. -/
theorem videoSetup_unrecognized_chroma (cb : FVlcMediaCallbacks) (Chroma : String)
    (Width Height : Nat) (ox oy : Int) (PlaneCount : Nat) (Fps : Rat)
    (hmin : 0 < min ox oy) (hc : chromaRecognized Chroma = false) :
    (PlaneCount = 0 →
      (StaticVideoSetupCallback cb Chroma Width Height
          (some (ox, oy)) PlaneCount Fps).retVal = 0) ∧
    (PlaneCount > 1 →
      (StaticVideoSetupCallback cb Chroma Width Height
          (some (ox, oy)) PlaneCount Fps).retVal = 1 ∧
      (StaticVideoSetupCallback cb Chroma Width Height
          (some (ox, oy)) PlaneCount Fps).chromaOut = "YUY2" ∧
      (StaticVideoSetupCallback cb Chroma Width Height
          (some (ox, oy)) PlaneCount Fps).state.VideoBufferDim
        = { X := Align16 ox / 2, Y := Align16 oy } ∧
      (StaticVideoSetupCallback cb Chroma Width Height
          (some (ox, oy)) PlaneCount Fps).state.VideoSampleFormat
        = EMediaTextureSampleFormat.CharYUY2) ∧
    (PlaneCount = 1 →
      (StaticVideoSetupCallback cb Chroma Width Height
          (some (ox, oy)) PlaneCount Fps).retVal = 1 ∧
      (StaticVideoSetupCallback cb Chroma Width Height
          (some (ox, oy)) PlaneCount Fps).chromaOut = "RV32" ∧
      (StaticVideoSetupCallback cb Chroma Width Height
          (some (ox, oy)) PlaneCount Fps).state.VideoBufferDim
        = { X := ox, Y := oy } ∧
      (StaticVideoSetupCallback cb Chroma Width Height
          (some (ox, oy)) PlaneCount Fps).state.VideoOutputDim
        = { X := ox, Y := oy } ∧
      (StaticVideoSetupCallback cb Chroma Width Height
          (some (ox, oy)) PlaneCount Fps).state.VideoSampleFormat
        = EMediaTextureSampleFormat.CharBGRA) := by
  simp only [chromaRecognized, Bool.or_eq_false_iff] at hc
  obtain ⟨⟨⟨⟨⟨⟨⟨⟨⟨h1, h2⟩, h3⟩, h4⟩, h5⟩, h6⟩, h7⟩, h8⟩, h9⟩, h10⟩ := hc
  have hgm : ¬(FIntPoint.GetMin { X := ox, Y := oy } ≤ 0) := by
    simp only [FIntPoint.GetMin]
    omega
  refine ⟨?_, ?_, ?_⟩
  · intro hp
    subst hp
    unfold StaticVideoSetupCallback
    simp only [h1, h2, h3, h4, h5, h6, h7, h8, h9, h10, hgm, if_false, if_true,
      Bool.or_self, Bool.false_eq_true, eq_self_iff_true]
  · intro hp
    have hp0 : ¬(PlaneCount = 0) := by omega
    unfold StaticVideoSetupCallback
    simp only [h1, h2, h3, h4, h5, h6, h7, h8, h9, h10, hgm, if_false, Bool.or_self,
      Bool.false_eq_true, hp0, if_pos hp]
    exact ⟨rfl, rfl, rfl, rfl⟩
  · intro hp
    subst hp
    have hp0 : ¬((1 : Nat) = 0) := by omega
    have hp1 : ¬((1 : Nat) > 1) := by omega
    unfold StaticVideoSetupCallback
    simp only [h1, h2, h3, h4, h5, h6, h7, h8, h9, h10, hgm, if_false, Bool.or_self,
      Bool.false_eq_true, hp0, hp1]
    exact ⟨rfl, rfl, rfl, rfl, rfl⟩

/-- Witness for claim C5 at concrete multi-plane and single-plane chromas. -/
theorem videoSetup_unrecognized_chroma_witness :
    (StaticVideoSetupCallback initialCallbacks "I420" 352 288
        (some (100, 60)) 3 30).chromaOut = "YUY2" ∧
    (StaticVideoSetupCallback initialCallbacks "I420" 352 288
        (some (100, 60)) 3 30).state.VideoBufferDim
      = { X := Align16 100 / 2, Y := Align16 60 } ∧
    (StaticVideoSetupCallback initialCallbacks "GREY" 352 288
        (some (100, 60)) 1 30).chromaOut = "RV32" ∧
    (StaticVideoSetupCallback initialCallbacks "GREY" 352 288
        (some (100, 60)) 1 30).state.VideoBufferDim = { X := 100, Y := 60 } := by
  have hA := (videoSetup_unrecognized_chroma initialCallbacks "I420" 352 288 100 60 3 30
    (by decide) (by decide)).2.1 (by omega)
  have hB := (videoSetup_unrecognized_chroma initialCallbacks "GREY" 352 288 100 60 1 30
    (by decide) (by decide)).2.2 rfl
  exact ⟨hA.2.1, hA.2.2.1, hB.2.1, hB.2.2.1⟩

/-- The transcode loop applied to a flattened pixel list equals the pointwise
per-pixel remap. -/
theorem bgraTranscode_map (ps : List (Nat × Nat × Nat × Nat)) :
    bgraTranscode ps.length (pixelsToBytes ps) = pixelsToBytes (ps.map bgraRemapPixel) := by
  induction ps with
  | nil => rfl
  | cons p rest ih =>
      obtain ⟨b0, b1, b2, b3⟩ := p
      simp only [List.length_cons, pixelsToBytes, bgraTranscode, List.map_cons,
        bgraRemapPixel, ih]

/-- The transcode loop preserves the buffer length. -/
theorem bgraTranscode_length (n : Nat) (buf : List Nat) :
    (bgraTranscode n buf).length = buf.length := by
  induction n generalizing buf with
  | zero => rfl
  | succ n ih =>
      match buf with
      | [] => rfl
      | [a] => rfl
      | [a, b] => rfl
      | [a, b, c] => rfl
      | a :: b :: c :: d :: rest =>
          simp only [bgraTranscode, List.length_cons, ih]

/-- For byte-valued inputs the per-pixel remap is a pure byte-level
re-mapping of that pixel alone: the new byte 0 extracts bits 2-6 of input
byte 1 (shifted up by one), bytes 1 and 2 are zeroed, and byte 3 is a copy
of input byte 0. -/
theorem bgraRemapPixel_bytes (b0 b1 b2 b3 : Nat) (hb0 : b0 < 256) (hb1 : b1 < 256) :
    bgraRemapPixel (b0, b1, b2, b3) = ((b1 &&& 0x7C) <<< 1, 0, 0, b0) := by
  unfold bgraRemapPixel
  dsimp only
  have hdrop : (b0 + 256 * b1 + 65536 * b2 + 16777216 * b3) &&& 0x7C00
      = (b0 + 256 * b1) &&& 0x7C00 := by
    have e1 : (0x7C00 : Nat) = (2 ^ 16 - 1) &&& 0x7C00 := by decide
    rw [e1, ← Nat.and_assoc, ← Nat.and_assoc,
      Nat.and_pow_two_sub_one_eq_mod, Nat.and_pow_two_sub_one_eq_mod]
    congr 1
    omega
  have hbridge : ((b0 + 256 * b1) &&& 0x7C00) >>> 7 = (b1 &&& 0x7C) <<< 1 := by
    have hbit : ∀ k, 8 ≤ k → (b0 + 256 * b1).testBit k = b1.testBit (k - 8) := by
      intro k hk
      have hk8 : k = 8 + (k - 8) := by omega
      rw [hk8, Nat.testBit_to_div_mod, Nat.testBit_to_div_mod,
        Nat.pow_add, ← Nat.div_div_eq_div_mul]
      have e : 8 + (k - 8) - 8 = k - 8 := by omega
      rw [e]
      have hq : (b0 + 256 * b1) / 2 ^ 8 = b1 := by
        have e2 : (2 : Nat) ^ 8 = 256 := by norm_num
        rw [e2]
        omega
      rw [hq]
    apply Nat.eq_of_testBit_eq
    intro i
    have hm1 : (0x7C00 : Nat) = (2 ^ 5 - 1) <<< 10 := by decide
    have hm2 : (0x7C : Nat) = (2 ^ 5 - 1) <<< 2 := by decide
    rw [hm1, hm2]
    simp only [Nat.testBit_shiftRight, Nat.testBit_and, Nat.testBit_shiftLeft,
      Nat.testBit_two_pow_sub_one]
    rcases Nat.lt_or_ge i 8 with hi | hi
    · interval_cases i <;> simp [hbit]
    · have e1 : ¬(7 + i - 10 < 5) := by omega
      have e2 : ¬(i - 1 - 2 < 5) := by omega
      simp [e1, e2]
  rw [hdrop, hbridge]

/-- Claim C9: the BGRA display-path transcode is a per-pixel channel
re-mapping only: over a width-by-height pixel buffer it equals the pointwise
map of a single-pixel function (every pixel is visited exactly once, output
pixel i depends only on input pixel i, and the buffer length is preserved);
for byte-valued pixels the output bytes are a bit-extraction of input byte 1,
two zeroed channels, and a copy of input byte 0 — no resampling or filtering
across pixels; and a display call on such a sample queues exactly the
pointwise-remapped buffer. -/
theorem bgra_transcode_per_pixel :
    (∀ ps : List (Nat × Nat × Nat × Nat),
      bgraTranscode ps.length (pixelsToBytes ps) = pixelsToBytes (ps.map bgraRemapPixel) ∧
      (bgraTranscode ps.length (pixelsToBytes ps)).length = (pixelsToBytes ps).length) ∧
    (∀ b0 b1 b2 b3 : Nat, b0 < 256 → b1 < 256 →
      bgraRemapPixel (b0, b1, b2, b3) = ((b1 &&& 0x7C) <<< 1, 0, 0, b0)) ∧
    (∀ (cb : FVlcMediaCallbacks) (s : FVlcMediaTextureSample)
        (ps : List (Nat × Nat × Nat × Nat)),
      s.format = EMediaTextureSampleFormat.CharBGRA →
      s.buffer = pixelsToBytes ps →
      (s.bufferDim.X * s.bufferDim.Y).toNat = ps.length →
      ∃ s2, (StaticVideoDisplayCallbackCore cb s).VideoQueue = cb.VideoQueue ++ [s2] ∧
        s2.buffer = pixelsToBytes (ps.map bgraRemapPixel)) := by
  refine ⟨?_, ?_, ?_⟩
  · intro ps
    exact ⟨bgraTranscode_map ps, bgraTranscode_length _ _⟩
  · intro b0 b1 b2 b3 hb0 hb1
    exact bgraRemapPixel_bytes b0 b1 b2 b3 hb0 hb1
  · intro cb s ps hfmt hbuf hlen
    unfold StaticVideoDisplayCallbackCore
    dsimp only
    rw [if_pos hfmt]
    refine ⟨_, rfl, ?_⟩
    dsimp only
    rw [hbuf, hlen]
    exact bgraTranscode_map ps

/-- A concrete two-pixel BGRA sample for the claim C9 witness. -/
def bgraWitnessSample : FVlcMediaTextureSample :=
  { bufferDim := { X := 2, Y := 1 }
    outputDim := { X := 2, Y := 1 }
    format := EMediaTextureSampleFormat.CharBGRA
    stride := 8
    duration := 0
    time := 0
    buffer := pixelsToBytes [(1, 127, 2, 3), (255, 255, 255, 255)] }

/-- Witness for claim C9 at a concrete two-pixel buffer. -/
theorem bgra_transcode_per_pixel_witness :
    bgraRemapPixel (1, 127, 2, 3) = ((127 &&& 0x7C) <<< 1, 0, 0, 1) ∧
    ∃ s2, (StaticVideoDisplayCallbackCore initialCallbacks bgraWitnessSample).VideoQueue
        = initialCallbacks.VideoQueue ++ [s2] ∧
      s2.buffer = pixelsToBytes
        ([(1, 127, 2, 3), (255, 255, 255, 255)].map bgraRemapPixel) := by
  constructor
  · exact bgra_transcode_per_pixel.2.1 1 127 2 3 (by decide) (by decide)
  · exact bgra_transcode_per_pixel.2.2 initialCallbacks bgraWitnessSample
      [(1, 127, 2, 3), (255, 255, 255, 255)] rfl rfl rfl

end VlcMedia
